import Mathlib

/-!
Shallow embedding of the bookly repository's persistence layer and
endpoint layer, with theorems checking the natural-language specification
against the code.

The database-backed service (`app/modular/book_module/services/book_service.py`)
is modelled as pure functions over an explicit table state `List Row`:
each SQL statement's effect on the `books` table is translated directly
from the statement text.  Timestamps are modelled as `Nat` ticks of a
logical clock passed explicitly where the code calls `datetime.now()`.
The in-memory endpoint variant (`src/endpoints.py`) is modelled over a
`List MemBook`.
-/

set_option maxRecDepth 20000

namespace Bookly

/-- Values appearing in a row mapping (what Python's `dict(row)` holds):
strings, integers, or timestamps. -/
inductive Val where
  | s (v : String)
  | i (v : Int)
  | t (v : Nat)
deriving DecidableEq, Repr

/-- A persisted row of the `books` table, columns as in
`book_model.py` (`uid, title, author, publisher, published_date,
page_count, language, created_at, updated_at`).  `published_date` is kept
as a string (the create schema declares it `str`); timestamps are logical
clock ticks. -/
structure Row where
  uid : String
  title : String
  author : String
  publisher : String
  published_date : String
  page_count : Int
  language : String
  created_at : Nat
  updated_at : Nat
deriving DecidableEq, Repr

/-- The mapping `dict(row)` of a full row, one entry per column. -/
def rowToDict (r : Row) : List (String × Val) :=
  [("uid", .s r.uid), ("title", .s r.title), ("author", .s r.author),
   ("publisher", .s r.publisher), ("published_date", .s r.published_date),
   ("page_count", .i r.page_count), ("language", .s r.language),
   ("created_at", .t r.created_at), ("updated_at", .t r.updated_at)]

/-- Embeds `BookServices.get_book`: `SELECT * FROM books WHERE uid = :uid`,
`result.mappings().first()`; `None` when no row matches.  When a row does
match, the source executes `return dict()` — a fresh empty dict, the
fetched `row` is discarded — so the embedding returns `some []`. -/
def get_book (db : List Row) (book_uid : String) : Option (List (String × Val)) :=
  match db.find? (fun r => r.uid == book_uid) with
  | none => none
  | some _row => some []

/-- The descending `created_at` order used by `get_all_books`'s
`ORDER BY created_at DESC`. -/
def createdGe (a b : Row) : Prop := b.created_at ≤ a.created_at

instance : DecidableRel createdGe := fun _ _ => Nat.decLe _ _

instance : IsTotal Row createdGe :=
  ⟨fun a b => (Nat.le_total b.created_at a.created_at).imp id id⟩

instance : IsTrans Row createdGe :=
  ⟨fun _ _ _ h1 h2 => Nat.le_trans h2 h1⟩

/-- Embeds `BookServices.get_all_books`:
`SELECT * FROM books ORDER BY created_at DESC`, then
`[dict(row) for row in result.mappings().all()]`.  The `ORDER BY` is
modelled as sorting the table by `created_at` descending. -/
def get_all_books (db : List Row) : List (List (String × Val)) :=
  (List.insertionSort createdGe db).map rowToDict

/-- The create input schema `BookCreateModule` (`book_schemas.py`): the
client supplies `title, author, publisher, published_date` and — as the
schema is written — also `created_at` and `updated_at`.  It has no
`page_count` or `language` field. -/
structure BookCreateModule where
  title : String
  author : String
  publisher : String
  published_date : String
  created_at : Nat
  updated_at : Nat
deriving DecidableEq, Repr

/-- The exact SQL text passed to `session.execute` by
`BookServices.create_book` (whitespace collapsed).  Its first word is
`IINSERT` and it ends with `RETURING *`, neither of which any SQL dialect
accepts. -/
def create_book_sql : String :=
  "IINSERT INTO books (uid, title, author, publisher, published_date, page_count, language, created_at, updated_at) VALUES (:uid, :title, :author, :publisher, :published_date, :page_count, :language, :created_at, :updated_at) RETURING *"

/-- The SQL command words a statement may begin with. -/
def sqlCommandWords : List String := ["SELECT", "INSERT", "UPDATE", "DELETE"]

/-- Leading whitespace dropped from a character list. -/
def dropWs : List Char → List Char
  | [] => []
  | c :: cs => if c.isWhitespace then dropWs cs else c :: cs

/-- The run of non-whitespace characters a list starts with. -/
def takeWord : List Char → List Char
  | [] => []
  | c :: cs => if c.isWhitespace then [] else c :: takeWord cs

/-- First whitespace-delimited word of a statement. -/
def firstWord (s : String) : String :=
  String.mk (takeWord (dropWs s.data))

/-- The `params` dict built by `BookServices.create_book`, read as the row
the insert would persist: `uid` is the fresh uuid, the create input's
fields are spread in, and then `page_count` is set to `0` and `language`
to `""` unconditionally.  The local `current_time` of the source is taken
as an argument and — exactly as in the source — never used:
`created_at`/`updated_at` come from the client input. -/
def create_book_params (book_uid : String) (current_time : Nat)
    (book_data : BookCreateModule) : Row :=
  { uid := book_uid
    title := book_data.title
    author := book_data.author
    publisher := book_data.publisher
    published_date := book_data.published_date
    page_count := 0
    language := ""
    created_at := book_data.created_at
    updated_at := book_data.updated_at }

/-- Best-case reading of `BookServices.create_book`: were its statement's
`IINSERT`/`RETURING` slips repaired and `mappings().first` actually
called, the insert would append `create_book_params` to the table and
return its mapping.  Used to show the round-trip still fails downstream. -/
def create_book_repaired (db : List Row) (book_uid : String) (current_time : Nat)
    (book_data : BookCreateModule) : List (String × Val) × List Row :=
  let row := create_book_params book_uid current_time book_data
  (rowToDict row, db ++ [row])

/-- State of one optional field of the update schema `BookUpdateModule`
under pydantic's `model_dump(exclude_unset= True)`: the field was not
supplied at all (`unset`), supplied as an explicit JSON null (`snull`),
or supplied with a value (`sval v`). -/
inductive Patch (α : Type) where
  | unset : Patch α
  | snull : Patch α
  | sval (v : α) : Patch α
deriving DecidableEq, Repr

/-- The value a patch contributes to the SQL `SET` clause: the source
keeps a field only when it appears in `model_dump(exclude_unset= True)`
and its value `is not None`, i.e. exactly in the `sval` case. -/
def Patch.eff {α : Type} : Patch α → Option α
  | .sval v => some v
  | _ => none

/-- The update input schema `BookUpdateModule` (`book_schemas.py`):
`title, author, publisher, page_count`, every field optional. -/
structure BookUpdateModule where
  title : Patch String := .unset
  author : Patch String := .unset
  publisher : Patch String := .unset
  page_count : Patch Int := .unset
deriving DecidableEq, Repr

/-- Whether any field survives the source's filtering loop, i.e. whether
`update_fields` holds more than the always-appended `updated_at`
(`len(update_fields) == 1` is the negation of this). -/
def hasSetField (u : BookUpdateModule) : Bool :=
  u.title.eff.isSome || u.author.eff.isSome ||
    u.publisher.eff.isSome || u.page_count.eff.isSome

/-- Effect of the generated `UPDATE books SET {fields} , updated_at =
:updated_at WHERE uid = :uid` on one matching row: each field present in
the `SET` clause is overwritten, `updated_at` is always set to the
`datetime.now()` of the call. -/
def setFields (u : BookUpdateModule) (now : Nat) (r : Row) : Row :=
  { r with
    title := u.title.eff.getD r.title
    author := u.author.eff.getD r.author
    publisher := u.publisher.eff.getD r.publisher
    page_count := u.page_count.eff.getD r.page_count
    updated_at := now }

/-- Embeds `BookServices.update_book`: fetch via `get_book` and
short-circuit on `None`; build `update_fields` from the non-null supplied
fields; when only `updated_at` would be set, return `book` (the value
`get_book` produced) without touching the table; otherwise execute the
`UPDATE ... RETURNING *`, modelled as rewriting every matching row and
returning the first matching row's mapping (`mappings().first()`), with a
final `None` guard. -/
def update_book (db : List Row) (book_uid : String) (u : BookUpdateModule)
    (now : Nat) : Option (List (String × Val)) × List Row :=
  match get_book db book_uid with
  | none => (none, db)
  | some book =>
    if hasSetField u = false then (some book, db)
    else
      let db2 := db.map (fun r => if r.uid == book_uid then setFields u now r else r)
      match db2.find? (fun r => r.uid == book_uid) with
      | none => (none, db2)
      | some r2 => (some (rowToDict r2), db2)

/-- Embeds `BookServices.delete_book`: fetch via `get_book` and
short-circuit to `None`; then `DELETE FROM books WHERE uid = :uid`
removes every matching row, and the function returns
`result.rowcount > 0`.  (The source's `session.commit()` lacks an
`await`; the delete itself is executed and its rowcount returned, so this
does not change the modelled value or table.) -/
def delete_book (db : List Row) (book_uid : String) : Option Bool × List Row :=
  match get_book db book_uid with
  | none => (none, db)
  | some _book =>
    let rowcount := db.countP (fun r => r.uid == book_uid)
    (some (decide (0 < rowcount)), db.filter (fun r => r.uid != book_uid))

/-- Observable actions of a database session used by the scoped-session
context manager. -/
inductive SessAction where
  | commit
  | rollback
  | close
deriving DecidableEq, Repr

/-- Embeds `get_db_session` (`app/core/db.py`): the body runs inside
`try:`; on normal completion `await session.commit()` runs; on any raised
error the `except:` clause rolls back and re-raises; the `finally:`
clause closes the session (releasing its connection) on every path.  The
body is abstracted as its outcome, and the result pairs the propagated
outcome with the ordered trace of session actions. -/
def get_db_session (body : Except String Unit) :
    Except String Unit × List SessAction :=
  let tried : Except String (List SessAction) :=
    match body with
    | .ok () => .ok [SessAction.commit]
    | .error e => .error e
  let handled : Except String Unit × List SessAction :=
    match tried with
    | .ok acts => (.ok (), acts)
    | .error e => (.error e, [SessAction.rollback])
  (handled.1, handled.2 ++ [SessAction.close])

/-- A record of the in-memory variant's `books` list (`src/endpoints.py`):
an integer `id` plus the payload fields copied from the validated create
request (their exact shape does not bear on the id logic, so they are
collapsed into one field). -/
structure MemBook where
  id : Int
  payload : String
deriving DecidableEq, Repr

/-- Python's `max` over a nonempty list, head and tail split off. -/
def pymax (x : Int) (xs : List Int) : Int := xs.foldl max x

/-- Embeds `create_books` of the in-memory variant: dump the request,
choose `max(b["id"] for b in books) + 1` when `books` is truthy
(nonempty) and `1` otherwise, attach the id, append, return the new
book. -/
def create_books (books : List MemBook) (payload : String) :
    MemBook × List MemBook :=
  let id : Int :=
    match books.map MemBook.id with
    | [] => 1
    | x :: xs => pymax x xs + 1
  let new_book : MemBook := { id := id, payload := payload }
  (new_book, books ++ [new_book])

/-! ### Helper lemmas shared by the claim theorems -/

/-- `get_book` is `none` exactly on a missing uid. -/
lemma get_book_none (db : List Row) (book_uid : String)
    (h : db.find? (fun r => r.uid == book_uid) = none) :
    get_book db book_uid = none := by
  unfold get_book; rw [h]

/-- `get_book` yields the (empty) mapping when a row is found. -/
lemma get_book_found (db : List Row) (book_uid : String) (r : Row)
    (h : db.find? (fun r => r.uid == book_uid) = some r) :
    get_book db book_uid = some [] := by
  unfold get_book; rw [h]

/-- Rewriting each matching row commutes with looking the uid up, because
`setFields` never changes `uid`. -/
lemma find?_setFields_map (db : List Row) (book_uid : String)
    (u : BookUpdateModule) (now : Nat) :
    (db.map (fun r => if r.uid == book_uid then setFields u now r else r)).find?
        (fun r => r.uid == book_uid) =
      (db.find? (fun r => r.uid == book_uid)).map
        (fun r => if r.uid == book_uid then setFields u now r else r) := by
  have hp : ((fun r : Row => r.uid == book_uid) ∘
      (fun r => if r.uid == book_uid then setFields u now r else r)) =
        (fun r : Row => r.uid == book_uid) := by
    funext r
    by_cases h : (r.uid == book_uid) = true
    · simp [Function.comp, h, setFields]
    · simp [Function.comp, h, setFields]
  rw [List.find?_map, hp]

/-- Characterisation of `update_book` on a present uid with at least one
effective field. -/
lemma update_book_found (db : List Row) (book_uid : String)
    (u : BookUpdateModule) (now : Nat) (r : Row)
    (hfind : db.find? (fun x => x.uid == book_uid) = some r)
    (hset : hasSetField u = true) :
    update_book db book_uid u now =
      (some (rowToDict (setFields u now r)),
        db.map (fun x => if x.uid == book_uid then setFields u now x else x)) := by
  have hbeq := List.find?_some hfind
  simp only at hbeq
  unfold update_book
  rw [get_book_found db book_uid r hfind]
  simp only [hset, Bool.true_eq_false, if_false]
  rw [find?_setFields_map db book_uid u now, hfind]
  have heq : r.uid = book_uid := by simpa using hbeq
  simp [heq]

/-- Characterisation of `update_book` on a present uid with no effective
field: the table is untouched and the `get_book` value is passed back. -/
lemma update_book_noop (db : List Row) (book_uid : String)
    (u : BookUpdateModule) (now : Nat) (r : Row)
    (hfind : db.find? (fun x => x.uid == book_uid) = some r)
    (hset : hasSetField u = false) :
    update_book db book_uid u now = (some [], db) := by
  unfold update_book
  rw [get_book_found db book_uid r hfind]
  simp [hset]

/-- Counting rows with a given uid equals counting that uid among the
mapped-out uid column. -/
lemma countP_uid_eq (db : List Row) (book_uid : String) :
    db.countP (fun r => r.uid == book_uid) = (db.map Row.uid).count book_uid := by
  rw [List.count_eq_countP, List.countP_map]
  rfl

/-! ### Concrete sample data used by closed theorems -/

/-- A concrete create input. -/
def sampleInput : BookCreateModule :=
  { title := "T", author := "A", publisher := "P",
    published_date := "2024-01-01", created_at := 1, updated_at := 1 }

/-- A concrete stored row with nonzero `page_count` and nonempty
`language`. -/
def sampleRow : Row :=
  { uid := "u0", title := "T", author := "A", publisher := "P",
    published_date := "2024-01-01", page_count := 7, language := "en",
    created_at := 1, updated_at := 1 }

/-- Character-list test: does the second list start with the first? -/
def startsWithPat : List Char → List Char → Bool
  | [], _ => true
  | _ :: _, [] => false
  | c :: cs, d :: ds => c == d && startsWithPat cs ds

/-- Character-list test: does the pattern occur anywhere in the text? -/
def hasSubPat (pat : List Char) : List Char → Bool
  | [] => startsWithPat pat []
  | d :: ds => startsWithPat pat (d :: ds) || hasSubPat pat ds

/-! ### Claim theorems -/

/-- Claim C1 (code_bug): the create/fetch round trip cannot hold on this
code.  The create statement's first word is `IINSERT`, not an SQL command
(and it says `RETURING`, never `RETURNING`), so executing it raises;
the `params` row hardwires `page_count = 0` and `language = ""` and takes
both timestamps from the client input rather than stamping the unused
`current_time`; and even under the repaired best-case insert, fetching
the new uid yields `get_book`'s empty dict, not the row the create
returned. -/
theorem create_then_get_roundtrip_fails :
    (firstWord create_book_sql = "IINSERT" ∧
      firstWord create_book_sql ∉ sqlCommandWords ∧
      hasSubPat "RETURNING".data create_book_sql.data = false ∧
      hasSubPat "RETURING".data create_book_sql.data = true) ∧
    ((create_book_params "u0" 5 sampleInput).page_count = 0 ∧
      (create_book_params "u0" 5 sampleInput).language = "" ∧
      (create_book_params "u0" 5 sampleInput).created_at ≠ 5 ∧
      (create_book_params "u0" 5 sampleInput).updated_at ≠ 5) ∧
    (get_book (create_book_repaired [] "u0" 5 sampleInput).2 "u0" = some [] ∧
      (create_book_repaired [] "u0" 5 sampleInput).1 ≠ []) := by
  refine ⟨⟨?_, ?_, ?_, ?_⟩, by decide, ?_, by decide⟩
  · rfl
  · decide
  · decide
  · decide
  · rfl

/-- Claim C2 (code_bug): `get_book` does return the non-exceptional
sentinel `none` when no row matches, but on a matching row it returns the
empty mapping `some []` (the source's `return dict()`), not the matching
row. -/
theorem get_book_returns_empty_dict :
    get_book ([] : List Row) "u0" = none ∧
    get_book [sampleRow] "u0" = some [] ∧
    rowToDict sampleRow ≠ [] := by
  refine ⟨rfl, rfl, by decide⟩

/-- Claim C4 (code_bug): an update whose input sets no field is a no-op
on the table (no `updated_at` bump, row untouched) and is reported as a
success, but the value returned is the empty mapping, not the existing
row. -/
theorem noop_update_returns_empty_dict :
    update_book [sampleRow] "u0" {} 5 = (some [], [sampleRow]) ∧
    (update_book [sampleRow] "u0" {} 5).1 ≠ some (rowToDict sampleRow) := by
  constructor
  · rfl
  · decide

/-- Claim C3 (confirmed): for a stored book, an update supplying only
`title` rewrites the stored row so that `author`, `publisher` and
`page_count` are unchanged, `title` takes the new value, and the stored
`updated_at` moves strictly forward (the call's clock is strictly later
than the row's last `updated_at`). -/
theorem update_title_only_frame (db : List Row) (book_uid t : String)
    (now : Nat) (r : Row)
    (hfind : db.find? (fun x => x.uid == book_uid) = some r)
    (hnow : r.updated_at < now) :
    (update_book db book_uid { title := Patch.sval t } now).2.find?
        (fun x => x.uid == book_uid) =
      some (setFields { title := Patch.sval t } now r) ∧
    (setFields { title := Patch.sval t } now r).author = r.author ∧
    (setFields { title := Patch.sval t } now r).publisher = r.publisher ∧
    (setFields { title := Patch.sval t } now r).page_count = r.page_count ∧
    (setFields { title := Patch.sval t } now r).title = t ∧
    r.updated_at < (setFields { title := Patch.sval t } now r).updated_at := by
  have hbeq := List.find?_some hfind
  simp only at hbeq
  have heq : r.uid = book_uid := by simpa using hbeq
  have hmain := update_book_found db book_uid { title := Patch.sval t } now r hfind rfl
  refine ⟨?_, rfl, rfl, rfl, rfl, ?_⟩
  · rw [hmain]
    rw [find?_setFields_map db book_uid { title := Patch.sval t } now, hfind]
    simp [heq]
  · simpa [setFields] using hnow

/-- Witness for C3 at a concrete table. -/
theorem update_title_only_frame_witness :
    (update_book [sampleRow] "u0" { title := Patch.sval "New" } 5).2.find?
        (fun x => x.uid == "u0") =
      some (setFields { title := Patch.sval "New" } 5 sampleRow) ∧
    (setFields { title := Patch.sval "New" } 5 sampleRow).author = sampleRow.author ∧
    (setFields { title := Patch.sval "New" } 5 sampleRow).publisher = sampleRow.publisher ∧
    (setFields { title := Patch.sval "New" } 5 sampleRow).page_count = sampleRow.page_count ∧
    (setFields { title := Patch.sval "New" } 5 sampleRow).title = "New" ∧
    sampleRow.updated_at < (setFields { title := Patch.sval "New" } 5 sampleRow).updated_at :=
  update_title_only_frame [sampleRow] "u0" "New" 5 sampleRow (by rfl) (by decide)

/-- Claim C5 (confirmed): `get_all_books` returns all stored rows
(a permutation of the table), ordered by `created_at` descending; three
rows created in order `A`, `B`, `C` (strictly increasing `created_at`)
come back as `C`, `B`, `A`, and an empty table yields the empty list. -/
theorem list_books_created_desc (A B C : Row)
    (h1 : A.created_at < B.created_at) (h2 : B.created_at < C.created_at) :
    get_all_books [A, B, C] = [rowToDict C, rowToDict B, rowToDict A] ∧
    get_all_books ([] : List Row) = [] ∧
    (∀ db : List Row, (List.insertionSort createdGe db).Perm db) ∧
    (∀ db : List Row, (List.insertionSort createdGe db).Sorted createdGe) := by
  refine ⟨?_, rfl, fun db => List.perm_insertionSort _ db,
    fun db => List.sorted_insertionSort _ db⟩
  have hAB : ¬ createdGe A B := Nat.not_le.mpr h1
  have hAC : ¬ createdGe A C := Nat.not_le.mpr (h1.trans h2)
  have hBC : ¬ createdGe B C := Nat.not_le.mpr h2
  simp [get_all_books, List.insertionSort, List.orderedInsert, hAB, hAC, hBC]

/-- Witness for C5 at concrete rows with `created_at` 1, 2, 3. -/
theorem list_books_created_desc_witness :
    get_all_books
        [{ sampleRow with created_at := 1 },
         { sampleRow with created_at := 2 },
         { sampleRow with created_at := 3 }] =
      [rowToDict { sampleRow with created_at := 3 },
       rowToDict { sampleRow with created_at := 2 },
       rowToDict { sampleRow with created_at := 1 }] :=
  (list_books_created_desc { sampleRow with created_at := 1 }
    { sampleRow with created_at := 2 } { sampleRow with created_at := 3 }
    (by decide) (by decide)).1

/-- Claim C6 (confirmed): `delete_book` checks existence through
`get_book` first; a missing uid yields the non-exceptional `none` with
the table untouched, while a present uid (uids being unique) deletes the
row, returns `some true`, and exactly one row is removed. -/
theorem delete_book_spec (db : List Row) (book_uid : String)
    (hnd : (db.map Row.uid).Nodup) :
    (db.find? (fun r => r.uid == book_uid) = none →
      delete_book db book_uid = (none, db)) ∧
    (∀ r, db.find? (fun r => r.uid == book_uid) = some r →
      delete_book db book_uid =
        (some true, db.filter (fun x => x.uid != book_uid)) ∧
      db.countP (fun x => x.uid == book_uid) = 1 ∧
      db.length = (db.filter (fun x => x.uid != book_uid)).length + 1) := by
  constructor
  · intro h
    unfold delete_book
    rw [get_book_none db book_uid h]
  · intro r hfind
    have hbeq := List.find?_some hfind
    simp only at hbeq
    have hmem : r ∈ db := List.mem_of_find?_eq_some hfind
    have hpos : 0 < db.countP (fun x => x.uid == book_uid) :=
      List.countP_pos_iff.mpr ⟨r, hmem, hbeq⟩
    have hle : db.countP (fun x => x.uid == book_uid) ≤ 1 := by
      rw [countP_uid_eq]
      exact List.nodup_iff_count_le_one.mp hnd book_uid
    have hcount : db.countP (fun x => x.uid == book_uid) = 1 :=
      Nat.le_antisymm hle hpos
    refine ⟨?_, hcount, ?_⟩
    · unfold delete_book
      rw [get_book_found db book_uid r hfind]
      simp [hcount]
    · have hsplit :
          db.length = (db.filter (fun x => x.uid == book_uid)).length +
            (db.filter (fun x => x.uid != book_uid)).length :=
        List.length_eq_length_filter_add (fun x => x.uid == book_uid)
      have hflen : (db.filter (fun x => x.uid == book_uid)).length = 1 := by
        rw [← List.countP_eq_length_filter]
        exact hcount
      rw [hsplit, hflen, Nat.add_comm]

/-- Witness for C6 at a one-row table. -/
theorem delete_book_spec_witness :
    delete_book [sampleRow] "u0" = (some true, []) ∧
    delete_book [sampleRow] "ghost" = (none, [sampleRow]) := by
  constructor
  · have h := ((delete_book_spec [sampleRow] "u0" (by decide)).2
      sampleRow (by rfl)).1
    simpa using h
  · exact (delete_book_spec [sampleRow] "ghost" (by decide)).1 (by rfl)

/-- Claim C7 (confirmed): on an identifier that matches no stored row,
`get_book`, `update_book` and `delete_book` all yield the very same
not-found sentinel (`none`), none of them an error. -/
theorem notfound_consistency (db : List Row) (book_uid : String)
    (u : BookUpdateModule) (now : Nat)
    (h : db.find? (fun r => r.uid == book_uid) = none) :
    get_book db book_uid = none ∧
    (update_book db book_uid u now).1 = none ∧
    (delete_book db book_uid).1 = none := by
  have hg : get_book db book_uid = none := get_book_none db book_uid h
  refine ⟨hg, ?_, ?_⟩
  · unfold update_book
    rw [hg]
  · unfold delete_book
    rw [hg]

/-- Witness for C7 on an empty table. -/
theorem notfound_consistency_witness :
    get_book ([] : List Row) "ghost" = none ∧
    (update_book ([] : List Row) "ghost" {} 0).1 = none ∧
    (delete_book ([] : List Row) "ghost").1 = none :=
  notfound_consistency [] "ghost" {} 0 (by rfl)

/-- Claim C8 (confirmed): the scoped session commits exactly once on
normal exit, rolls back (and propagates the error) on any error raised in
the scope, and its final action on every path is closing the session,
which releases the connection. -/
theorem session_scope_spec (body : Except String Unit) :
    ((get_db_session body).2.getLast? = some SessAction.close) ∧
    (body = .ok () →
      get_db_session body = (.ok (), [SessAction.commit, SessAction.close]) ∧
      (get_db_session body).2.count SessAction.commit = 1) ∧
    (∀ e, body = .error e →
      get_db_session body = (.error e, [SessAction.rollback, SessAction.close]) ∧
      (get_db_session body).2.count SessAction.commit = 0 ∧
      (get_db_session body).2.count SessAction.rollback = 1) := by
  refine ⟨?_, ?_, ?_⟩
  · cases body with
    | ok u => cases u; rfl
    | error e => rfl
  · intro h
    subst h
    exact ⟨rfl, rfl⟩
  · intro e h
    subst h
    exact ⟨rfl, rfl, rfl⟩

/-- Witness for C8 at both a normal and an erroring body. -/
theorem session_scope_spec_witness :
    get_db_session (.ok ()) = (.ok (), [SessAction.commit, SessAction.close]) ∧
    get_db_session (.error "boom") =
      (.error "boom", [SessAction.rollback, SessAction.close]) :=
  ⟨((session_scope_spec (.ok ())).2.1 rfl).1,
    ((session_scope_spec (.error "boom")).2.2 "boom" rfl).1⟩

/-- One of the four optional fields of the update schema. -/
inductive UpdField where
  | ftitle
  | fauthor
  | fpublisher
  | fpage_count
deriving DecidableEq, Repr

/-- Overwrite one field's patch with an explicit null. -/
def setNullAt (u : BookUpdateModule) : UpdField → BookUpdateModule
  | .ftitle => { u with title := .snull }
  | .fauthor => { u with author := .snull }
  | .fpublisher => { u with publisher := .snull }
  | .fpage_count => { u with page_count := .snull }

/-- Overwrite one field's patch with absence. -/
def unsetAt (u : BookUpdateModule) : UpdField → BookUpdateModule
  | .ftitle => { u with title := .unset }
  | .fauthor => { u with author := .unset }
  | .fpublisher => { u with publisher := .unset }
  | .fpage_count => { u with page_count := .unset }

/-- Read one updatable field out of a row. -/
def readField : UpdField → Row → Val
  | .ftitle, r => .s r.title
  | .fauthor, r => .s r.author
  | .fpublisher, r => .s r.publisher
  | .fpage_count, r => .i r.page_count

/-- A null patch and an absent patch drive `update_book` identically. -/
lemma setFields_null_eq_unset (u : BookUpdateModule) (f : UpdField) :
    setFields (setNullAt u f) = setFields (unsetAt u f) := by
  funext now r
  cases f <;> simp [setFields, setNullAt, unsetAt, Patch.eff]

/-- A null patch and an absent patch leave the same set of effective
fields. -/
lemma hasSetField_null_eq_unset (u : BookUpdateModule) (f : UpdField) :
    hasSetField (setNullAt u f) = hasSetField (unsetAt u f) := by
  cases f <;> simp [hasSetField, setNullAt, unsetAt, Patch.eff]

/-- Claim C9 (confirmed): in `update_book`, a field explicitly set to
null behaves exactly like that field being absent — the full result
(returned value and table) is equal in the two runs — and the stored
value of that field is left unchanged on the matching row. -/
theorem update_null_eq_absent (db : List Row) (book_uid : String)
    (u : BookUpdateModule) (now : Nat) (f : UpdField) :
    update_book db book_uid (setNullAt u f) now =
      update_book db book_uid (unsetAt u f) now ∧
    (∀ r r', db.find? (fun x => x.uid == book_uid) = some r →
      (update_book db book_uid (setNullAt u f) now).2.find?
          (fun x => x.uid == book_uid) = some r' →
      readField f r' = readField f r) := by
  constructor
  · unfold update_book
    rw [setFields_null_eq_unset u f, hasSetField_null_eq_unset u f]
  · intro r r' hfind hfind'
    have hbeq := List.find?_some hfind
    simp only at hbeq
    have heq : r.uid = book_uid := by simpa using hbeq
    by_cases hset : hasSetField (setNullAt u f) = true
    · have hmain := update_book_found db book_uid (setNullAt u f) now r hfind hset
      rw [hmain] at hfind'
      have hfind2 : (db.map (fun x =>
          if x.uid == book_uid then setFields (setNullAt u f) now x else x)).find?
            (fun x => x.uid == book_uid) = some r' := hfind'
      rw [find?_setFields_map db book_uid (setNullAt u f) now, hfind] at hfind2
      simp [heq] at hfind2
      subst hfind2
      cases f <;> simp [setFields, setNullAt, readField, Patch.eff]
    · have hset' : hasSetField (setNullAt u f) = false :=
        Bool.eq_false_iff.mpr hset
      have hmain := update_book_noop db book_uid (setNullAt u f) now r hfind hset'
      rw [hmain] at hfind'
      have hfind2 : db.find? (fun x => x.uid == book_uid) = some r' := hfind'
      rw [hfind] at hfind2
      have hr : r = r' := by injection hfind2
      subst hr
      rfl

/-- Witness for C9: nulling `title` while setting `author` equals merely
omitting `title`, and the stored title survives. -/
theorem update_null_eq_absent_witness :
    update_book [sampleRow] "u0"
        (setNullAt { author := Patch.sval "B" } UpdField.ftitle) 5 =
      update_book [sampleRow] "u0"
        (unsetAt { author := Patch.sval "B" } UpdField.ftitle) 5 ∧
    readField UpdField.ftitle
        (setFields (setNullAt { author := Patch.sval "B" } UpdField.ftitle) 5
          sampleRow) =
      readField UpdField.ftitle sampleRow := by
  have h := update_null_eq_absent [sampleRow] "u0"
    { author := Patch.sval "B" } 5 UpdField.ftitle
  refine ⟨h.1, ?_⟩
  exact h.2 sampleRow
    (setFields (setNullAt { author := Patch.sval "B" } UpdField.ftitle) 5 sampleRow)
    (by rfl) (by rfl)

/-- Every member of a Python `max` fold is bounded by the fold. -/
lemma le_pymax : ∀ (xs : List Int) (x y : Int), (y = x ∨ y ∈ xs) → y ≤ pymax x xs := by
  intro xs
  induction xs with
  | nil =>
    intro x y h
    rcases h with h | h
    · simpa [pymax] using le_of_eq h
    · cases h
  | cons a l ih =>
    intro x y h
    have hstep : pymax x (a :: l) = pymax (max x a) l := rfl
    rw [hstep]
    rcases h with h | h
    · subst h
      exact le_trans (le_max_left y a) (ih (max y a) (max y a) (Or.inl rfl))
    · rcases List.mem_cons.mp h with h | h
      · subst h
        exact le_trans (le_max_right x y) (ih (max x y) (max x y) (Or.inl rfl))
      · exact ih (max x a) y (Or.inr h)

/-- Claim C10 (confirmed): the in-memory `create_books` assigns id
`max(existing ids) + 1` on a nonempty list and `1` on an empty list
(no error on empty), so the assigned id differs from every existing id;
the new book is appended with that id. -/
theorem create_books_fresh_id (books : List MemBook) (payload : String) :
    (books = [] → (create_books books payload).1.id = 1) ∧
    (∀ x xs, books.map MemBook.id = x :: xs →
      (create_books books payload).1.id = pymax x xs + 1) ∧
    (∀ b ∈ books, (create_books books payload).1.id ≠ b.id) ∧
    (create_books books payload).2 = books ++ [(create_books books payload).1] := by
  refine ⟨?_, ?_, ?_, ?_⟩
  · intro h
    subst h
    rfl
  · intro x xs h
    cases books with
    | nil => cases h
    | cons a l =>
      simp only [List.map_cons] at h
      cases h
      rfl
  · intro b hb
    cases books with
    | nil => cases hb
    | cons a l =>
      have hle : b.id ≤ pymax a.id (l.map MemBook.id) := by
        rcases List.mem_cons.mp hb with h | h
        · exact le_pymax (l.map MemBook.id) a.id b.id (Or.inl (by rw [h]))
        · exact le_pymax (l.map MemBook.id) a.id b.id
            (Or.inr (List.mem_map_of_mem MemBook.id h))
      have hid : (create_books (a :: l) payload).1.id =
          pymax a.id (l.map MemBook.id) + 1 := rfl
      rw [hid]
      intro hcontra
      rw [← hcontra] at hle
      omega
  · cases books with
    | nil => rfl
    | cons a l => rfl

/-- Witness for C10: with ids 1 and 3 present, the new id is 4, distinct
from the existing id 3. -/
theorem create_books_fresh_id_witness :
    (create_books [{ id := 1, payload := "a" }, { id := 3, payload := "b" }]
        "c").1.id ≠ (3 : Int) := by
  have h := (create_books_fresh_id
    [{ id := 1, payload := "a" }, { id := 3, payload := "b" }] "c").2.2.1
    { id := 3, payload := "b" } (by simp)
  simpa using h

end Bookly
